import Mathlib

/-!
Shallow embedding of the HTTP/2 core of VTest2 (Rust) and proofs about it.

The definitions mirror the Rust sources under `src/http/h2/`:
frame codec (`codec.rs`), frame types (`frames.rs`), settings (`settings.rs`),
flow-control windows (`flow_control.rs`), streams and the stream manager
(`stream.rs`), and the client driver (`client.rs`).  Machine integers are
modelled as `Nat` (unsigned) and `Int` (the Rust `i64` window counter), with
bit operations written exactly as in the source.  Byte buffers are
`List Nat` of values below 256.
-/

namespace VTest2

/-! ### Frame types — `src/http/h2/frames.rs` -/

/-- HTTP/2 frame types (RFC 7540 Section 6), mirroring `enum FrameType`. -/
inductive FrameType where
  | data
  | headers
  | priority
  | rstStream
  | settings
  | pushPromise
  | ping
  | goaway
  | windowUpdate
  | continuation
deriving DecidableEq

/-- `FrameType::as_u8`. -/
def FrameType.asU8 : FrameType → Nat
  | .data => 0x0
  | .headers => 0x1
  | .priority => 0x2
  | .rstStream => 0x3
  | .settings => 0x4
  | .pushPromise => 0x5
  | .ping => 0x6
  | .goaway => 0x7
  | .windowUpdate => 0x8
  | .continuation => 0x9

/-- `FrameType::from_u8`: the ten defined type bytes map to their variant,
every other byte maps to `none`. -/
def FrameType.fromU8 : Nat → Option FrameType
  | 0x0 => some .data
  | 0x1 => some .headers
  | 0x2 => some .priority
  | 0x3 => some .rstStream
  | 0x4 => some .settings
  | 0x5 => some .pushPromise
  | 0x6 => some .ping
  | 0x7 => some .goaway
  | 0x8 => some .windowUpdate
  | 0x9 => some .continuation
  | _ => none

/-! ### Frame header codec — `src/http/h2/codec.rs` -/

/-- `FrameCodec::encode_header`: 3 big-endian length bytes, the type byte,
the flags byte, 4 big-endian stream-id bytes with the reserved top bit
cleared (`stream_id & 0x7FFFFFFF`). -/
def encode_header (frame_type : FrameType) (flags : Nat) (stream_id : Nat)
    (length : Nat) : List Nat :=
  let sid := stream_id &&& 0x7FFFFFFF
  [ (length >>> 16) &&& 0xFF,
    (length >>> 8) &&& 0xFF,
    length &&& 0xFF,
    frame_type.asU8,
    flags,
    (sid >>> 24) &&& 0xFF,
    (sid >>> 16) &&& 0xFF,
    (sid >>> 8) &&& 0xFF,
    sid &&& 0xFF ]

/-- `FrameCodec::decode_header`: reassembles (type, flags, stream id, length)
from the 9 header bytes.  An unrecognized type byte is replaced by
`FrameType::Data` (`FrameType::from_u8(bytes[3]).unwrap_or(FrameType::Data)`);
the reserved bit of the stream id is masked (`bytes[5] & 0x7F`). -/
def decode_header (bytes : List Nat) : FrameType × Nat × Nat × Nat :=
  let length := ((bytes.getD 0 0) <<< 16) ||| ((bytes.getD 1 0) <<< 8) |||
    (bytes.getD 2 0)
  let frame_type := (FrameType.fromU8 (bytes.getD 3 0)).getD FrameType.data
  let flags := bytes.getD 4 0
  let stream_id := (((bytes.getD 5 0) &&& 0x7F) <<< 24) |||
    ((bytes.getD 6 0) <<< 16) ||| ((bytes.getD 7 0) <<< 8) |||
    (bytes.getD 8 0)
  (frame_type, flags, stream_id, length)

/-! ### Errors — `src/http/h2/error.rs` -/

/-- Kinds of `std::io::Error` the codec produces: `UnexpectedEof` on EOF
mid-frame and `InvalidData` for an oversized payload length. -/
inductive IoErrorKind where
  | unexpectedEof
  | invalidData
deriving DecidableEq

/-- The `Error` variants of `error.rs` reachable in the embedded code paths. -/
inductive H2Error where
  | ioErr (kind : IoErrorKind)
  | protocol (msg : String)
  | internal (msg : String)
  | flowControl (msg : String)
  | streamClosed (id : Nat)
  | frameSize (msg : String)
  | cancel (id : Nat)
  | compression (msg : String)
  | tooManyStreams
  | invalidSettings (msg : String)
  | connectionClosed
  | missingPreface
  /-- Not an `Error` variant of `error.rs`: a distinguished value embedding a
  Rust panic (process abort), so that aborting paths of the source are kept
  apart from its ordinary error returns. -/
  | panicked (msg : String)
deriving DecidableEq

/-- Decidable equality for `Except` results, used to evaluate the model on
concrete inputs. -/
instance {ε α : Type} [DecidableEq ε] [DecidableEq α] :
    DecidableEq (Except ε α) := fun a b =>
  match a, b with
  | .ok x, .ok y =>
    if h : x = y then .isTrue (by rw [h])
    else .isFalse (fun hc => h (Except.ok.inj hc))
  | .error x, .error y =>
    if h : x = y then .isTrue (by rw [h])
    else .isFalse (fun hc => h (Except.error.inj hc))
  | .ok _, .error _ => .isFalse (fun hc => Except.noConfusion hc)
  | .error _, .ok _ => .isFalse (fun hc => Except.noConfusion hc)

/-! ### Flow control — `src/http/h2/flow_control.rs` -/

/-- `DEFAULT_INITIAL_WINDOW_SIZE` from `mod.rs`. -/
def DEFAULT_INITIAL_WINDOW_SIZE : Nat := 65535

/-- `struct FlowControlWindow { initial_size: u32, current_size: i64,
max_size: i64 }`. -/
structure FlowControlWindow where
  initial_size : Nat
  current_size : Int
  max_size : Int
deriving DecidableEq

/-- `FlowControlWindow::with_initial_size`. -/
def FlowControlWindow.with_initial_size (initial_size : Nat) :
    FlowControlWindow :=
  { initial_size := initial_size
    current_size := (initial_size : Int)
    max_size := 0x7FFFFFFF }

/-- `FlowControlWindow::new`. -/
def FlowControlWindow.new : FlowControlWindow :=
  FlowControlWindow.with_initial_size DEFAULT_INITIAL_WINDOW_SIZE

/-- `FlowControlWindow::consume`.  The Rust method returns `Result<usize>` but
every path is `Ok`; the embedding returns the granted amount together with
the updated window.  A request of 0, or a window at or below 0, grants 0;
otherwise `min(amount, current_size)` is granted and deducted. -/
def FlowControlWindow.consume (w : FlowControlWindow) (amount : Nat) :
    Nat × FlowControlWindow :=
  if amount = 0 then (0, w)
  else if w.current_size ≤ 0 then (0, w)
  else
    let to_send : Int := min (amount : Int) w.current_size
    (to_send.toNat, { w with current_size := w.current_size - to_send })

/-- `FlowControlWindow::increase`: a zero increment or an overflow past
`max_size` (2³¹−1) is a flow-control error and leaves the window unchanged;
otherwise the increment is added.  The pair keeps the updated window next to
the `Result<i64>`. -/
def FlowControlWindow.increase (w : FlowControlWindow) (increment : Nat) :
    Except H2Error Int × FlowControlWindow :=
  if increment = 0 then
    (.error (.flowControl "Window update increment must be non-zero"), w)
  else
    let new_size := w.current_size + (increment : Int)
    if new_size > w.max_size then
      (.error (.flowControl "Window size exceeds maximum (2^31-1)"), w)
    else
      (.ok new_size, { w with current_size := new_size })

/-- `FlowControlWindow::decrease`: unconditional subtraction, may go
negative. -/
def FlowControlWindow.decrease (w : FlowControlWindow) (amount : Nat) :
    FlowControlWindow :=
  { w with current_size := w.current_size - (amount : Int) }

/-- `FlowControlWindow::update_initial_size`: applies the delta between the
new and old initial size to `current_size`, failing on overflow. -/
def FlowControlWindow.update_initial_size (w : FlowControlWindow)
    (new_initial_size : Nat) : Except H2Error FlowControlWindow :=
  let diff : Int := (new_initial_size : Int) - (w.initial_size : Int)
  let new_current := w.current_size + diff
  if new_current > w.max_size then
    .error (.flowControl "New window size exceeds maximum (2^31-1)")
  else
    .ok { w with initial_size := new_initial_size, current_size := new_current }

/-- An interleaved sequence of `consume` / `increase` calls on one window. -/
inductive WindowOp where
  | consume (n : Nat)
  | increase (n : Nat)
deriving DecidableEq

/-- Runs a sequence of window operations, returning the final window, the sum
of the granted byte counts of all `consume` calls, and the sum of the
increments of the `increase` calls that returned `Ok`. -/
def runWindowOps : List WindowOp → FlowControlWindow →
    FlowControlWindow × Nat × Nat
  | [], w => (w, 0, 0)
  | .consume n :: rest, w =>
    let r := w.consume n
    let t := runWindowOps rest r.2
    (t.1, r.1 + t.2.1, t.2.2)
  | .increase n :: rest, w =>
    let r := w.increase n
    let t := runWindowOps rest r.2
    if r.1.isOk then (t.1, t.2.1, n + t.2.2) else (t.1, t.2.1, t.2.2)

/-! ### Streams — `src/http/h2/stream.rs` -/

/-- `enum StreamState` (RFC 7540 §5.1). -/
inductive StreamState where
  | Idle
  | ReservedLocal
  | ReservedRemote
  | Open
  | HalfClosedLocal
  | HalfClosedRemote
  | Closed
deriving DecidableEq

/-- `StreamState::can_send`. -/
def StreamState.can_send : StreamState → Bool
  | .Open => true
  | .HalfClosedRemote => true
  | _ => false

/-- `StreamState::can_receive`. -/
def StreamState.can_receive : StreamState → Bool
  | .Open => true
  | .HalfClosedLocal => true
  | _ => false

/-- `StreamState::is_closed`. -/
def StreamState.is_closed : StreamState → Bool
  | .Closed => true
  | _ => false

/-- `struct PrioritySpec` from `frames.rs`. -/
structure PrioritySpec where
  stream_dependency : Nat
  exclusive : Bool
  weight : Nat
deriving DecidableEq

/-- `struct H2Stream`: state machine plus the two per-stream flow-control
windows (`StreamFlowControl` is flattened into its send/recv windows) and the
header/body accumulators. -/
structure H2Stream where
  id : Nat
  state : StreamState
  sendWindow : FlowControlWindow
  recvWindow : FlowControlWindow
  priority : Option PrioritySpec
  header_block : List Nat
  body : List Nat
  headers_complete : Bool
  stream_complete : Bool
deriving DecidableEq

/-- `H2Stream::new`: Idle, default 65535-byte windows, empty accumulators. -/
def H2Stream.new (id : Nat) : H2Stream :=
  { id := id
    state := .Idle
    sendWindow := FlowControlWindow.new
    recvWindow := FlowControlWindow.new
    priority := none
    header_block := []
    body := []
    headers_complete := false
    stream_complete := false }

/-- `H2Stream::send_data`: fails with `StreamClosed` unless the state can
send; otherwise consumes the stream send window (always `Ok`) and, when
`end_stream` is set, advances the state machine regardless of the granted
amount. -/
def H2Stream.send_data (s : H2Stream) (data_len : Nat) (end_stream : Bool) :
    Except H2Error (Nat × H2Stream) :=
  if ¬ s.state.can_send then .error (.streamClosed s.id)
  else
    let (sendable, w') := s.sendWindow.consume data_len
    let s1 := { s with sendWindow := w' }
    let s2 := if end_stream then
        { s1 with state :=
            match s1.state with
            | .Open => .HalfClosedLocal
            | .HalfClosedRemote => .Closed
            | st => st }
      else s1
    .ok (sendable, s2)

/-- `H2Stream::receive_data`: fails with `StreamClosed` unless the state can
receive; deducts the payload length from the stream recv window, appends the
payload to the body accumulator, and advances the state on `END_STREAM`. -/
def H2Stream.receive_data (s : H2Stream) (data : List Nat)
    (end_stream : Bool) : Except H2Error H2Stream :=
  if ¬ s.state.can_receive then .error (.streamClosed s.id)
  else
    let s1 := { s with
      recvWindow := s.recvWindow.decrease data.length
      body := s.body ++ data }
    let s2 := if end_stream then
        { s1 with
          stream_complete := true
          state :=
            match s1.state with
            | .Open => .HalfClosedRemote
            | .HalfClosedLocal => .Closed
            | st => st }
      else s1
    .ok s2

/-- `H2Stream::close`. -/
def H2Stream.close (s : H2Stream) : H2Stream :=
  { s with state := .Closed }

/-! ### Stream manager — `src/http/h2/stream.rs` -/

/-- `struct StreamManager`: streams keyed by id (the `HashMap` is embedded as
an association list), the next locally allocated id, and the concurrency
cap. -/
structure StreamManager where
  streams : List (Nat × H2Stream)
  next_stream_id : Nat
  max_concurrent_streams : Option Nat
deriving DecidableEq

/-- `StreamManager::new`: next id 1 for a client, 2 for a server. -/
def StreamManager.new (is_client : Bool) : StreamManager :=
  { streams := []
    next_stream_id := if is_client then 1 else 2
    max_concurrent_streams := none }

/-- Lookup in the embedded `HashMap`. -/
def StreamManager.get_stream (m : StreamManager) (stream_id : Nat) :
    Option H2Stream :=
  (m.streams.lookup stream_id)

/-- Pointwise update of one stream in the embedded `HashMap` (used for the
`get_stream_mut` call sites). -/
def StreamManager.set_stream (m : StreamManager) (stream_id : Nat)
    (s : H2Stream) : StreamManager :=
  { m with streams := m.streams.map (fun p => if p.1 = stream_id then (stream_id, s) else p) }

/-- `StreamManager::create_stream`: fails with `TooManyStreams` when the
number of non-closed streams has reached the cap, otherwise allocates
`next_stream_id`, steps it by 2, and inserts a fresh stream. -/
def StreamManager.create_stream (m : StreamManager) :
    Except H2Error (Nat × StreamManager) :=
  let active_count := (m.streams.filter (fun p => ¬ p.2.state.is_closed)).length
  match m.max_concurrent_streams with
  | some maxStreams =>
    if active_count ≥ maxStreams then .error .tooManyStreams
    else
      .ok (m.next_stream_id,
        { m with
          streams := m.streams ++ [(m.next_stream_id, H2Stream.new m.next_stream_id)]
          next_stream_id := m.next_stream_id + 2 })
  | none =>
    .ok (m.next_stream_id,
      { m with
        streams := m.streams ++ [(m.next_stream_id, H2Stream.new m.next_stream_id)]
        next_stream_id := m.next_stream_id + 2 })

/-- `StreamManager::get_or_create_stream`: inserts a fresh stream when the id
is unknown (the parity variables in the source are computed and discarded; no
ordering check is performed) and always returns `Ok`. -/
def StreamManager.get_or_create_stream (m : StreamManager) (stream_id : Nat) :
    Except H2Error StreamManager :=
  if (m.streams.lookup stream_id).isSome then .ok m
  else .ok { m with streams := m.streams ++ [(stream_id, H2Stream.new stream_id)] }

/-! ### Settings — `src/http/h2/settings.rs` -/

/-- `struct Settings`: a sparse map of the eight recognized parameters. -/
structure Settings where
  header_table_size : Option Nat
  enable_push : Option Bool
  max_concurrent_streams : Option Nat
  initial_window_size : Option Nat
  max_frame_size : Option Nat
  max_header_list_size : Option Nat
  enable_connect_protocol : Option Bool
  no_rfc7540_priorities : Option Bool
deriving DecidableEq

/-- `Settings::new`: all fields absent. -/
def Settings.new : Settings :=
  { header_table_size := none
    enable_push := none
    max_concurrent_streams := none
    initial_window_size := none
    max_frame_size := none
    max_header_list_size := none
    enable_connect_protocol := none
    no_rfc7540_priorities := none }

/-- `Settings::default_settings`. -/
def Settings.default_settings : Settings :=
  { header_table_size := some 4096
    enable_push := some true
    max_concurrent_streams := none
    initial_window_size := some 65535
    max_frame_size := some 16384
    max_header_list_size := none
    enable_connect_protocol := some false
    no_rfc7540_priorities := some false }

/-- `Settings::validate`: INITIAL_WINDOW_SIZE at most 2³¹−1 and
MAX_FRAME_SIZE within 16384–16777215, else `InvalidSettings`. -/
def Settings.validate (s : Settings) : Except H2Error Unit :=
  match s.initial_window_size with
  | some sz =>
    if sz > 0x7FFFFFFF then
      .error (.invalidSettings "Initial window size exceeds maximum (2^31-1)")
    else
      match s.max_frame_size with
      | some fsz =>
        if fsz < 16384 ∨ fsz > 16777215 then
          .error (.invalidSettings "Max frame size outside valid range (16384-16777215)")
        else .ok ()
      | none => .ok ()
  | none =>
    match s.max_frame_size with
    | some fsz =>
      if fsz < 16384 ∨ fsz > 16777215 then
        .error (.invalidSettings "Max frame size outside valid range (16384-16777215)")
      else .ok ()
    | none => .ok ()

/-- Field-level rule of `Settings::merge`: `if other.f.is_some { self.f = other.f }`. -/
def mergeField {α : Type} (other cur : Option α) : Option α :=
  match other with
  | some v => some v
  | none => cur

/-- `Settings::merge`: present fields of `other` overwrite, absent fields
leave the current value in place. -/
def Settings.merge (s other : Settings) : Settings :=
  { header_table_size := mergeField other.header_table_size s.header_table_size
    enable_push := mergeField other.enable_push s.enable_push
    max_concurrent_streams := mergeField other.max_concurrent_streams s.max_concurrent_streams
    initial_window_size := mergeField other.initial_window_size s.initial_window_size
    max_frame_size := mergeField other.max_frame_size s.max_frame_size
    max_header_list_size := mergeField other.max_header_list_size s.max_header_list_size
    enable_connect_protocol := mergeField other.enable_connect_protocol s.enable_connect_protocol
    no_rfc7540_priorities := mergeField other.no_rfc7540_priorities s.no_rfc7540_priorities }

/-! ### Frame payload encoders — `src/http/h2/codec.rs` -/

/-- `BufMut::put_u16` (big-endian). -/
def u16be (v : Nat) : List Nat :=
  [(v >>> 8) &&& 0xFF, v &&& 0xFF]

/-- `BufMut::put_u32` (big-endian). -/
def u32be (v : Nat) : List Nat :=
  [(v >>> 24) &&& 0xFF, (v >>> 16) &&& 0xFF, (v >>> 8) &&& 0xFF, v &&& 0xFF]

/-- `u32::from_be_bytes` on the first four bytes of a payload. -/
def u32from (payload : List Nat) : Nat :=
  ((payload.getD 0 0) <<< 24) ||| ((payload.getD 1 0) <<< 16) |||
    ((payload.getD 2 0) <<< 8) ||| (payload.getD 3 0)

/-- Settings payload body written by `encode_settings_frame` for a non-ACK
frame: one 6-byte entry per present parameter, in field order. -/
def settings_payload (s : Settings) : List Nat :=
  (match s.header_table_size with
   | some v => u16be 0x1 ++ u32be v
   | none => []) ++
  (match s.enable_push with
   | some v => u16be 0x2 ++ u32be (if v then 1 else 0)
   | none => []) ++
  (match s.max_concurrent_streams with
   | some v => u16be 0x3 ++ u32be v
   | none => []) ++
  (match s.initial_window_size with
   | some v => u16be 0x4 ++ u32be v
   | none => []) ++
  (match s.max_frame_size with
   | some v => u16be 0x5 ++ u32be v
   | none => []) ++
  (match s.max_header_list_size with
   | some v => u16be 0x6 ++ u32be v
   | none => []) ++
  (match s.enable_connect_protocol with
   | some v => u16be 0x8 ++ u32be (if v then 1 else 0)
   | none => []) ++
  (match s.no_rfc7540_priorities with
   | some v => u16be 0x9 ++ u32be (if v then 1 else 0)
   | none => [])

/-- `FrameCodec::encode_settings_frame`: stream id 0; an ACK frame carries
the ACK flag and an empty payload. -/
def encode_settings_frame (ack : Bool) (s : Settings) : List Nat :=
  let settings_data := if ack then [] else settings_payload s
  encode_header .settings (if ack then 1 else 0) 0 settings_data.length ++
    settings_data

/-- `struct DataFrame` from `frames.rs`. -/
structure DataFrame where
  stream_id : Nat
  data : List Nat
  end_stream : Bool
  padding : Option Nat
deriving DecidableEq

/-- `FrameCodec::encode_data_frame`: END_STREAM mirrors the field; when
padding is configured the PADDED flag is set and the payload is
`pad_len(1) || data || pad_len zero bytes`. -/
def encode_data_frame (frame : DataFrame) : List Nat :=
  let flags0 := if frame.end_stream then 0x1 else 0
  match frame.padding with
  | some pad_len =>
    let payload_len := frame.data.length + 1 + pad_len
    encode_header .data (flags0 ||| 0x8) frame.stream_id payload_len ++
      [pad_len] ++ frame.data ++ List.replicate pad_len 0
  | none =>
    encode_header .data flags0 frame.stream_id frame.data.length ++ frame.data

/-- `FrameCodec::encode_ping_frame`: stream id 0, 8-byte payload, ACK flag
when echoing. -/
def encode_ping_frame (ack : Bool) (data : List Nat) : List Nat :=
  encode_header .ping (if ack then 1 else 0) 0 8 ++ data

/-! ### Client driver — `src/http/h2/client.rs` -/

/-- A frame as returned by `recv_frame`: `(FrameType, FrameFlags, u32, Bytes)`. -/
structure FrameRaw where
  typ : FrameType
  flags : Nat
  stream_id : Nat
  payload : List Nat
deriving DecidableEq

/-- Connection-side state of `H2Client` touched by the embedded methods: the
stream manager, the two connection-level windows of `ConnectionFlowControl`,
and the local/remote settings. -/
structure ClientState where
  stream_manager : StreamManager
  connSendWindow : FlowControlWindow
  connRecvWindow : FlowControlWindow
  local_settings : Settings
  remote_settings : Settings
deriving DecidableEq

/-- The settings-parsing loop of `recv_settings`: reads 6-byte entries
(2-byte big-endian id, 4-byte big-endian value) while
`pos + 6 <= payload.len()`, storing known ids and ignoring unknown ones; a
trailing fragment shorter than an entry is dropped.  The position stepping
by 6 is embedded as consuming six list elements per iteration. -/
def parse_settings_go : List Nat → Settings → Settings
  | b0 :: b1 :: b2 :: b3 :: b4 :: b5 :: rest, s =>
    let id := b0 * 256 + b1
    let value := b2 * 16777216 + b3 * 65536 + b4 * 256 + b5
    let s' :=
      if id = 0x1 then { s with header_table_size := some value }
      else if id = 0x2 then { s with enable_push := some (value ≠ 0) }
      else if id = 0x3 then { s with max_concurrent_streams := some value }
      else if id = 0x4 then { s with initial_window_size := some value }
      else if id = 0x5 then { s with max_frame_size := some value }
      else if id = 0x6 then { s with max_header_list_size := some value }
      else if id = 0x8 then { s with enable_connect_protocol := some (value ≠ 0) }
      else if id = 0x9 then { s with no_rfc7540_priorities := some (value ≠ 0) }
      else s
    parse_settings_go rest s'
  | _, s => s

/-- Settings parsed from a SETTINGS payload by `recv_settings`. -/
def parse_settings_payload (payload : List Nat) : Settings :=
  parse_settings_go payload Settings.new

/-- The rescale loop of `recv_settings`: applies `update_initial_size` to the
send window of every existing stream, propagating the first error. -/
def update_streams_initial (streams : List (Nat × H2Stream)) (new_size : Nat) :
    Except H2Error (List (Nat × H2Stream)) :=
  match streams with
  | [] => .ok []
  | (i, s) :: rest =>
    match s.sendWindow.update_initial_size new_size with
    | .error e => .error e
    | .ok w' =>
      match update_streams_initial rest new_size with
      | .error e => .error e
      | .ok rest' => .ok ((i, { s with sendWindow := w' }) :: rest')

/-- `H2Client::recv_settings`, applied to the frame it reads: rejects a
non-SETTINGS type and a nonzero stream id with `Protocol`; an ACK is a
no-op; otherwise parses the payload, validates, merges into
`remote_settings`, updates the concurrency cap, rescales every stream send
window when INITIAL_WINDOW_SIZE is present, and emits a SETTINGS ACK.  The
second component collects the frames written to the session. -/
def recv_settings_frame (st : ClientState) (f : FrameRaw) :
    Except H2Error (ClientState × List (List Nat)) :=
  if f.typ ≠ .settings then
    .error (.protocol "Expected SETTINGS frame")
  else if f.stream_id ≠ 0 then
    .error (.protocol "SETTINGS frame must have stream ID 0")
  else if f.flags &&& 0x1 ≠ 0 then
    .ok (st, [])
  else
    let settings := parse_settings_payload f.payload
    match settings.validate with
    | .error e => .error e
    | .ok _ =>
      let st1 := { st with
        remote_settings := st.remote_settings.merge settings
        stream_manager := { st.stream_manager with
          max_concurrent_streams := settings.max_concurrent_streams } }
      match settings.initial_window_size with
      | some new_size =>
        match update_streams_initial st1.stream_manager.streams new_size with
        | .error e => .error e
        | .ok streams' =>
          .ok ({ st1 with
              stream_manager := { st1.stream_manager with streams := streams' } },
            [encode_settings_frame true Settings.new])
      | none => .ok (st1, [encode_settings_frame true Settings.new])

/-- `H2Client::send_data`: consumes the connection-level send window first
(error `FlowControl "Connection window exhausted"` when it grants 0), then
runs `H2Stream::send_data` on the target stream when it exists (error
`FlowControl "Stream window exhausted"` when the stream window grants 0),
then writes the encoded frame.  The state is returned alongside the result
because the window consumption mutates `self` even on the error paths. -/
def client_send_data (st : ClientState) (frame : DataFrame) :
    Except H2Error (List Nat) × ClientState :=
  let (sendable_conn, connW') := st.connSendWindow.consume frame.data.length
  let st1 := { st with connSendWindow := connW' }
  if sendable_conn = 0 then
    (.error (.flowControl "Connection window exhausted"), st1)
  else
    match st1.stream_manager.get_stream frame.stream_id with
    | some s =>
      match s.send_data frame.data.length frame.end_stream with
      | .error e => (.error e, st1)
      | .ok (sendable_stream, s') =>
        let st2 := { st1 with
          stream_manager := st1.stream_manager.set_stream frame.stream_id s' }
        if sendable_stream = 0 then
          (.error (.flowControl "Stream window exhausted"), st2)
        else
          (.ok (encode_data_frame frame), st2)
    | none => (.ok (encode_data_frame frame), st1)

/-- `struct H2Response` (headers embedded as an association list with the
`HashMap::insert` replace-on-collision rule). -/
structure H2Response where
  stream_id : Nat
  status : Nat
  headers : List (String × String)
  body : List Nat
deriving DecidableEq

/-- `HashMap::insert`: replaces the value of an existing key, else appends. -/
def mapInsert (m : List (String × String)) (k v : String) :
    List (String × String) :=
  if (m.lookup k).isSome then
    m.map (fun p => if p.1 = k then (k, v) else p)
  else m ++ [(k, v)]

/-- The header-application loop of the HEADERS arm of `recv_response`:
`:status` is parsed into the status field by `parse::<u16>().unwrap_or(0)`
— one optional leading `+` is accepted, then decimal digits fitting a
`u16`, anything else yields 0 — and every other decoded pair is inserted
into the header map. -/
def applyHeaders (resp : H2Response) (decoded : List (String × String)) :
    H2Response :=
  match decoded with
  | [] => resp
  | (name, value) :: rest =>
    let resp' :=
      if name = ":status" then
        { resp with status :=
            let digits := if value.startsWith "+" then value.drop 1 else value
            match digits.toNat? with
            | some n => if n < 65536 then n else 0
            | none => 0 }
      else { resp with headers := mapInsert resp.headers name value }
    applyHeaders resp' rest

/-- HPACK decoding step of the HEADERS arm of `recv_response`: a decoder
failure maps to a `Compression` error, success applies the decoded pairs to
the response. -/
def headersDecode (hp : List Nat → Except String (List (String × String)))
    (resp : H2Response) (payload : List Nat) : Except H2Error H2Response :=
  match hp payload with
  | .error e => .error (.compression e)
  | .ok decoded => .ok (applyHeaders resp decoded)

/-- `H2Client::recv_response` as a loop over the inbound frame sequence.
`hp` is the HPACK decoder collaborator (a black box per the design).  Frames
for other stream ids are skipped; HEADERS after the first are trailers and
are skipped; a DATA frame deducts its payload length from the connection and
stream recv windows and stores its payload as the body
(`response.body = payload`); a SETTINGS frame triggers `recv_settings`,
which reads the next frame; WINDOW_UPDATE applies `increase`; a non-ACK PING
is echoed with the ACK flag — its `data.copy_from_slice(&payload[..8])`
panics when the payload is shorter than 8 bytes, embedded as the
`panicked` value; GOAWAY fails with `ConnectionClosed`;
RST_STREAM closes the stream and fails with `Cancel`.  The loop ends with
the response when END_STREAM is seen on HEADERS or DATA, and fails with EOF
when the frames run out.  The last component accumulates the frames written
back to the session. -/
def recv_response_go (hp : List Nat → Except String (List (String × String)))
    (target : Nat) (st : ClientState) (resp : H2Response)
    (headers_received : Bool) (outs : List (List Nat)) :
    List FrameRaw → Except H2Error (H2Response × ClientState × List (List Nat))
  | [] => .error (.ioErr .unexpectedEof)
  | ⟨ftyp, fflags, fsid, fpayload⟩ :: rest =>
    if fsid ≠ target ∧ fsid ≠ 0 then
      recv_response_go hp target st resp headers_received outs rest
    else
      match ftyp with
      | .headers =>
        if headers_received then
          recv_response_go hp target st resp headers_received outs rest
        else
          match headersDecode hp resp fpayload with
          | .error e => .error e
          | .ok resp' =>
            if fflags &&& 0x1 ≠ 0 then .ok (resp', st, outs)
            else recv_response_go hp target st resp' true outs rest
      | .data =>
        let st1 := { st with
          connRecvWindow := st.connRecvWindow.decrease fpayload.length }
        let st2 :=
          match st1.stream_manager.get_stream target with
          | some s =>
            let s' := { s with
              recvWindow := s.recvWindow.decrease fpayload.length }
            { st1 with
              stream_manager := st1.stream_manager.set_stream target s' }
          | none => st1
        let resp' := { resp with body := fpayload }
        if fflags &&& 0x1 ≠ 0 then .ok (resp', st2, outs)
        else recv_response_go hp target st2 resp' headers_received outs rest
      | .settings =>
        match rest with
        | [] => .error (.ioErr .unexpectedEof)
        | g :: rest2 =>
          match recv_settings_frame st g with
          | .error e => .error e
          | .ok (st', newOuts) =>
            recv_response_go hp target st' resp headers_received
              (outs ++ newOuts) rest2
      | .windowUpdate =>
        if fpayload.length ≠ 4 then
          .error (.frameSize "WINDOW_UPDATE must be 4 bytes")
        else
          let increment := u32from fpayload
          if fsid = 0 then
            match st.connSendWindow.increase increment with
            | (.ok _, w') =>
              recv_response_go hp target { st with connSendWindow := w' } resp
                headers_received outs rest
            | (.error e, _) => .error e
          else
            match st.stream_manager.get_stream fsid with
            | some s =>
              match s.sendWindow.increase increment with
              | (.ok _, w') =>
                let s' := { s with sendWindow := w' }
                let mgr := st.stream_manager.set_stream fsid s'
                recv_response_go hp target { st with stream_manager := mgr }
                  resp headers_received outs rest
              | (.error e, _) => .error e
            | none =>
              recv_response_go hp target st resp headers_received outs rest
      | .ping =>
        if fflags &&& 0x1 ≠ 0 then
          recv_response_go hp target st resp headers_received outs rest
        else if fpayload.length < 8 then
          .error (.panicked "range end index 8 out of range for slice")
        else
          recv_response_go hp target st resp headers_received
            (outs ++ [encode_ping_frame true (fpayload.take 8)]) rest
      | .goaway => .error .connectionClosed
      | .rstStream =>
        let st' :=
          match st.stream_manager.get_stream fsid with
          | some s =>
            { st with stream_manager :=
                st.stream_manager.set_stream fsid s.close }
          | none => st
        let _ := st'
        .error (.cancel fsid)
      | _ => recv_response_go hp target st resp headers_received outs rest

/-- Entry point of the `recv_response` embedding: empty response, no headers
seen yet, no output frames yet. -/
def recv_response (hp : List Nat → Except String (List (String × String)))
    (target : Nat) (st : ClientState) (frames : List FrameRaw) :
    Except H2Error (H2Response × ClientState × List (List Nat)) :=
  recv_response_go hp target st
    { stream_id := target, status := 0, headers := [], body := [] }
    false [] frames

/-! ### Read path — `src/http/h2/codec.rs` -/

/-- `MAX_FRAME_SIZE` from `codec.rs`: the fixed constant `0x00FFFFFF`. -/
def MAX_FRAME_SIZE : Nat := 0x00FFFFFF

/-- `FrameCodec::read_frame_from_session` over a byte stream: reads the
9-byte header (EOF mid-header is `UnexpectedEof`, surfaced to the client as
a connection-closed I/O error), rejects a decoded payload length above the
constant `MAX_FRAME_SIZE` with `InvalidData`, then reads exactly `length`
payload bytes (EOF mid-payload is again `UnexpectedEof`).  Returns the frame
and the unconsumed rest of the stream. -/
def read_frame_from_session (input : List Nat) :
    Except H2Error ((FrameType × Nat × Nat × List Nat) × List Nat) :=
  if input.length < 9 then .error (.ioErr .unexpectedEof)
  else
    let dec := decode_header (input.take 9)
    let payload_len := dec.2.2.2
    if payload_len > MAX_FRAME_SIZE then .error (.ioErr .invalidData)
    else if input.length - 9 < payload_len then .error (.ioErr .unexpectedEof)
    else
      .ok ((dec.1, dec.2.1, dec.2.2.1, (input.drop 9).take payload_len),
        input.drop (9 + payload_len))

/-! ### Server startup — spec §4.6 -/

/-- `CONNECTION_PREFACE` from `mod.rs`: the 24 bytes of
`PRI * HTTP/2.0\r\n\r\nSM\r\n\r\n`. -/
def CONNECTION_PREFACE : List Nat :=
  [0x50, 0x52, 0x49, 0x20, 0x2a, 0x20, 0x48, 0x54, 0x54, 0x50, 0x2f, 0x32,
   0x2e, 0x30, 0x0d, 0x0a, 0x0d, 0x0a, 0x53, 0x4d, 0x0d, 0x0a, 0x0d, 0x0a]

/-- Steps of the server startup handshake, in order. -/
inductive ServerAction where
  | sendSettings (s : Settings)
  | recvPeerSettings
  | sendSettingsAck
deriving DecidableEq

/-- Modelled from the spec: `H2Server` in `src/http/h2/server.rs` is a
placeholder struct, so the server startup sequence of spec §4.6 has no
source; this definition renders that paragraph.  Startup reads exactly 24
bytes from the transport (EOF first is a closed connection), compares them
byte-for-byte against `CONNECTION_PREFACE` (mismatch is the fatal
`MissingPreface`), then sends its own SETTINGS, reads the peer's SETTINGS,
merges them into the default remote settings, and sends a SETTINGS ACK. -/
def server_startup (input : List Nat) (own peer : Settings) :
    Except H2Error (Settings × List ServerAction) :=
  if input.length < 24 then .error .connectionClosed
  else if input.take 24 ≠ CONNECTION_PREFACE then .error .missingPreface
  else
    .ok (Settings.default_settings.merge peer,
      [.sendSettings own, .recvPeerSettings, .sendSettingsAck])

end VTest2

namespace VTest2

/-! ### Arithmetic bridging lemmas for the bit operations used by the codec -/

theorem and_255_eq_mod (x : Nat) : x &&& 255 = x % 256 := by
  have h := Nat.and_pow_two_sub_one_eq_mod x 8
  norm_num at h
  exact h

theorem and_127_eq_mod (x : Nat) : x &&& 127 = x % 128 := by
  have h := Nat.and_pow_two_sub_one_eq_mod x 7
  norm_num at h
  exact h

theorem and_mask31_eq_mod (x : Nat) : x &&& 2147483647 = x % 2147483648 := by
  have h := Nat.and_pow_two_sub_one_eq_mod x 31
  norm_num at h
  exact h

theorem or_eq_add_256 (a b : Nat) (hb : b < 256) :
    (a * 256) ||| b = a * 256 + b := by
  have hb2 : b < 2 ^ 8 := by omega
  have h := Nat.mul_add_lt_is_or (i := 8) hb2 a
  norm_num at h
  rw [Nat.mul_comm] at h
  exact h.symm

theorem or_eq_add_65536 (a b : Nat) (hb : b < 65536) :
    (a * 65536) ||| b = a * 65536 + b := by
  have hb2 : b < 2 ^ 16 := by omega
  have h := Nat.mul_add_lt_is_or (i := 16) hb2 a
  norm_num at h
  rw [Nat.mul_comm] at h
  exact h.symm

theorem or_eq_add_16777216 (a b : Nat) (hb : b < 16777216) :
    (a * 16777216) ||| b = a * 16777216 + b := by
  have hb2 : b < 2 ^ 24 := by omega
  have h := Nat.mul_add_lt_is_or (i := 24) hb2 a
  norm_num at h
  rw [Nat.mul_comm] at h
  exact h.symm

/-- Round-trip of the 9-byte header through the codec, as a reusable lemma:
for a defined frame type, an 8-bit flags value, a 31-bit stream id and a
24-bit length, decoding the encoded header restores every field. -/
theorem decode_encode_header (t : FrameType) (flags stream_id length : Nat)
    (hs : stream_id ≤ 0x7FFFFFFF) (hl : length ≤ 0xFFFFFF) :
    decode_header (encode_header t flags stream_id length) =
      (t, flags, stream_id, length) := by
  have hsid : stream_id &&& 2147483647 = stream_id := by
    rw [and_mask31_eq_mod]
    exact Nat.mod_eq_of_lt (by omega)
  have hty : FrameType.fromU8 t.asU8 = some t := by cases t <;> rfl
  simp only [encode_header, decode_header, hsid, List.getD, List.get?,
    Nat.shiftRight_eq_div_pow, Nat.shiftLeft_eq, and_255_eq_mod,
    and_127_eq_mod, hty, Option.getD_some, Option.getD]
  norm_num
  refine ⟨?_, ?_⟩
  · -- stream id bytes reassemble
    have h5 : stream_id / 16777216 % 128 = stream_id / 16777216 := by omega
    rw [h5]
    have e1 : (stream_id / 16777216) * 16777216 |||
        stream_id / 65536 % 256 * 65536 =
        (stream_id / 16777216) * 16777216 + stream_id / 65536 % 256 * 65536 :=
      or_eq_add_16777216 _ _ (by omega)
    rw [e1]
    have e2 : (stream_id / 16777216) * 16777216 +
        stream_id / 65536 % 256 * 65536 =
        ((stream_id / 16777216) * 256 + stream_id / 65536 % 256) * 65536 := by
      ring
    rw [e2, or_eq_add_65536 _ _ (by omega)]
    have e3 : ((stream_id / 16777216) * 256 + stream_id / 65536 % 256) * 65536 +
        stream_id / 256 % 256 * 256 =
        (((stream_id / 16777216) * 256 + stream_id / 65536 % 256) * 256 +
          stream_id / 256 % 256) * 256 := by
      ring
    rw [e3, or_eq_add_256 _ _ (by omega)]
    omega
  · -- length bytes reassemble
    have e1 : (length / 65536 % 256) * 65536 ||| length / 256 % 256 * 256 =
        (length / 65536 % 256) * 65536 + length / 256 % 256 * 256 :=
      or_eq_add_65536 _ _ (by omega)
    rw [e1]
    have e2 : (length / 65536 % 256) * 65536 + length / 256 % 256 * 256 =
        ((length / 65536 % 256) * 256 + length / 256 % 256) * 256 := by
      ring
    rw [e2, or_eq_add_256 _ _ (by omega)]
    omega

/-! ### Claim C1 -/

/-- C1: for every frame type among the ten defined types, every 8-bit flags
value, every stream id ≤ 2³¹−1 and every length ≤ 2²⁴−1, decoding the 9-byte
header produced by `encode_header` returns exactly the same
(type, flags, stream id, length) tuple. -/
theorem C1_header_roundtrip (t : FrameType) (flags stream_id length : Nat)
    (_hf : flags < 256) (hs : stream_id ≤ 0x7FFFFFFF)
    (hl : length ≤ 0xFFFFFF) :
    decode_header (encode_header t flags stream_id length) =
      (t, flags, stream_id, length) :=
  decode_encode_header t flags stream_id length hs hl

/-- Witness for C1 at a concrete header. -/
theorem C1_header_roundtrip_witness :
    (5 : Nat) < 256 ∧ (42 : Nat) ≤ 0x7FFFFFFF ∧ (1234 : Nat) ≤ 0xFFFFFF ∧
    decode_header (encode_header .headers 5 42 1234) =
      (.headers, 5, 42, 1234) :=
  ⟨by norm_num, by norm_num, by norm_num,
    C1_header_roundtrip .headers 5 42 1234 (by norm_num) (by norm_num)
      (by norm_num)⟩

/-! ### Claim C5 -/

/-- C5 counterexample: the header whose type byte is 10 (not one of the ten
defined types) does not decode to a frame type carrying the byte 10 — the
decoder substitutes `FrameType::Data` (type byte 0) instead of returning the
unknown byte as-is. -/
theorem C5_unknown_type_not_as_is :
    FrameType.fromU8 10 = none ∧
    (decode_header [0, 0, 0, 10, 0, 0, 0, 0, 1]).1 = FrameType.data ∧
    (decode_header [0, 0, 0, 10, 0, 0, 0, 0, 1]).1.asU8 ≠ 10 := by
  decide

/-- C5 (amended): decoding a 9-byte frame header never fails, and a header
whose type byte is not one of the ten defined types decodes to
`FrameType::Data` (the `unwrap_or(FrameType::Data)` fallback), not to the
unknown byte itself. -/
theorem C5_unknown_type_decodes_as_data (bytes : List Nat)
    (h : FrameType.fromU8 (bytes.getD 3 0) = none) :
    (decode_header bytes).1 = FrameType.data := by
  show (FrameType.fromU8 (bytes.getD 3 0)).getD FrameType.data = FrameType.data
  rw [h]
  rfl

/-- Witness for C5 (amended) at the type byte 10. -/
theorem C5_unknown_type_decodes_as_data_witness :
    FrameType.fromU8 ([0, 0, 0, 10, 0, 0, 0, 0, 255].getD 3 0) = none ∧
    (decode_header [0, 0, 0, 10, 0, 0, 0, 0, 255]).1 = FrameType.data :=
  ⟨by decide, C5_unknown_type_decodes_as_data _ (by decide)⟩

/-! ### Claim C9 -/

/-- C9: from a state that permits sending (`Open` or `HalfClosedRemote`),
`H2Stream::send_data` with `end_stream = true` never returns an error and
always advances the state machine (`Open` to `HalfClosedLocal`,
`HalfClosedRemote` to `Closed`), for every window, i.e. regardless of the
number of bytes the flow-control window grants. -/
theorem C9_send_data_end_stream_advances (s : H2Stream) (len : Nat)
    (h : s.state = .Open ∨ s.state = .HalfClosedRemote) :
    ∃ granted s', s.send_data len true = .ok (granted, s') ∧
      (s.state = .Open → s'.state = .HalfClosedLocal) ∧
      (s.state = .HalfClosedRemote → s'.state = .Closed) := by
  rcases h with h | h
  · refine ⟨(s.sendWindow.consume len).1,
      { s with state := .HalfClosedLocal,
               sendWindow := (s.sendWindow.consume len).2 }, ?_, ?_, ?_⟩
    · simp [H2Stream.send_data, StreamState.can_send, h]
    · intro _; rfl
    · intro hc; rw [h] at hc; exact absurd hc (by decide)
  · refine ⟨(s.sendWindow.consume len).1,
      { s with state := .Closed,
               sendWindow := (s.sendWindow.consume len).2 }, ?_, ?_, ?_⟩
    · simp [H2Stream.send_data, StreamState.can_send, h]
    · intro hc; rw [h] at hc; exact absurd hc (by decide)
    · intro _; rfl

/-- Witness for C9 on an `Open` stream whose send window is exhausted
(initial size 0), so the granted amount is 0 and the state still advances. -/
theorem C9_send_data_end_stream_advances_witness :
    (({ H2Stream.new 1 with
        state := .Open,
        sendWindow := FlowControlWindow.with_initial_size 0 } : H2Stream).state
        = .Open ∨
      ({ H2Stream.new 1 with
        state := .Open,
        sendWindow := FlowControlWindow.with_initial_size 0 } : H2Stream).state
        = .HalfClosedRemote) ∧
    (∃ granted s',
      ({ H2Stream.new 1 with
        state := .Open,
        sendWindow := FlowControlWindow.with_initial_size 0 } : H2Stream).send_data
          5 true = .ok (granted, s') ∧
      (StreamState.Open = .Open → s'.state = .HalfClosedLocal) ∧
      (StreamState.Open = .HalfClosedRemote → s'.state = .Closed)) := by
  refine ⟨Or.inl rfl, ?_⟩
  exact C9_send_data_end_stream_advances _ 5 (Or.inl rfl)

/-! ### Claim C4 -/

/-- `consume` on a nonnegative window grants exactly the decrease of the
window and keeps it nonnegative. -/
theorem consume_spec (w : FlowControlWindow) (n : Nat)
    (hw : 0 ≤ w.current_size) :
    0 ≤ (w.consume n).2.current_size ∧
    ((w.consume n).1 : Int) + (w.consume n).2.current_size = w.current_size := by
  unfold FlowControlWindow.consume
  by_cases h0 : n = 0
  · simp [h0, hw]
  · by_cases hc : w.current_size ≤ 0
    · simp [h0, hc, hw]
    · simp only [h0, hc, if_false]
      have hmin : (0 : Int) ≤ min (n : Int) w.current_size :=
        le_min (by positivity) (by omega)
      constructor
      · omega
      · simp only [Int.toNat_of_nonneg hmin]
        omega

/-- `increase` either fails leaving the window unchanged, or adds exactly
the increment. -/
theorem increase_spec (w : FlowControlWindow) (n : Nat) :
    ((w.increase n).1.isOk = false ∧ (w.increase n).2 = w) ∨
    ((w.increase n).1.isOk = true ∧
      (w.increase n).2.current_size = w.current_size + n) := by
  unfold FlowControlWindow.increase
  by_cases h0 : n = 0
  · exact Or.inl (by simp [h0, Except.isOk, Except.toBool])
  · by_cases hov : w.current_size + (n : Int) > w.max_size
    · exact Or.inl (by simp [h0, hov, Except.isOk, Except.toBool])
    · exact Or.inr (by simp [h0, hov, Except.isOk, Except.toBool])

/-- Run-level invariant behind C4: starting from a nonnegative window, the
window stays nonnegative and the granted total plus the final window equals
the starting window plus the successful-increase total. -/
theorem runWindowOps_invariant (ops : List WindowOp) (w : FlowControlWindow)
    (hw : 0 ≤ w.current_size) :
    0 ≤ (runWindowOps ops w).1.current_size ∧
    ((runWindowOps ops w).2.1 : Int) + (runWindowOps ops w).1.current_size =
      w.current_size + ((runWindowOps ops w).2.2 : Int) := by
  induction ops generalizing w with
  | nil => exact ⟨by simpa [runWindowOps] using hw, by simp [runWindowOps]⟩
  | cons op rest ih =>
    cases op with
    | consume n =>
      have hcons := consume_spec w n hw
      have hrest := ih (w.consume n).2 hcons.1
      simp only [runWindowOps]
      constructor
      · exact hrest.1
      · push_cast
        omega
    | increase n =>
      rcases increase_spec w n with ⟨hok, heq⟩ | ⟨hok, heq⟩
      · have hrest := ih (w.increase n).2 (by rw [heq]; exact hw)
        simp only [runWindowOps, hok]
        rw [heq] at hrest ⊢
        simp only [Bool.false_eq_true, if_false]
        exact ⟨hrest.1, by omega⟩
      · have hrest := ih (w.increase n).2 (by rw [heq]; omega)
        simp only [runWindowOps, hok, if_true]
        constructor
        · exact hrest.1
        · push_cast
          omega

/-- C4: for every window created with initial size `I` (a `u32`) and every
finite interleaving of `consume` and `increase` operations, the sum of the
byte counts granted by the `consume` calls never exceeds `I` plus the sum of
the increments of the `increase` calls that returned successfully. -/
theorem C4_granted_bounded (ops : List WindowOp) (I : Nat)
    (_hI : I < 4294967296) :
    (runWindowOps ops (FlowControlWindow.with_initial_size I)).2.1 ≤
      I + (runWindowOps ops (FlowControlWindow.with_initial_size I)).2.2 := by
  have h := runWindowOps_invariant ops (FlowControlWindow.with_initial_size I)
    (by exact Int.natCast_nonneg I)
  have h1 := h.1
  have h2 := h.2
  have hcur : (FlowControlWindow.with_initial_size I).current_size = (I : Int) :=
    rfl
  rw [hcur] at h2
  omega

/-- Witness for C4: a window of size 100, consuming 50, increasing by 100,
then consuming 200 grants 50 + 150 = 200 ≤ 100 + 100. -/
theorem C4_granted_bounded_witness :
    (100 : Nat) < 4294967296 ∧
    (runWindowOps [.consume 50, .increase 100, .consume 200]
        (FlowControlWindow.with_initial_size 100)).2.1 ≤
      100 + (runWindowOps [.consume 50, .increase 100, .consume 200]
        (FlowControlWindow.with_initial_size 100)).2.2 :=
  ⟨by norm_num,
    C4_granted_bounded [.consume 50, .increase 100, .consume 200] 100
      (by norm_num)⟩

/-! ### Claim C6 -/

/-- Association-list lookup distributes over append, deferring to the second
list when the key is absent from the first. -/
theorem lookup_append (l1 l2 : List (Nat × H2Stream)) (k : Nat) :
    (l1 ++ l2).lookup k =
      match l1.lookup k with
      | some v => some v
      | none => l2.lookup k := by
  induction l1 with
  | nil => simp [List.lookup]
  | cons p t ih =>
    by_cases h : k = p.1
    · simp [List.lookup, h]
    · have hne : (k == p.1) = false := by simp [h]
      simp [List.lookup, hne, ih]

/-- C6 counterexample: a client-side manager that has already seen the peer
stream id 6 receives a frame on the lower unknown id 4;
`get_or_create_stream` returns `Ok` and inserts the stream instead of
failing with a PROTOCOL_ERROR connection error. -/
theorem C6_lower_unknown_id_created :
    (StreamManager.get_or_create_stream
        ⟨[(6, H2Stream.new 6)], 1, none⟩ 4).isOk = true ∧
    (StreamManager.get_or_create_stream
        ⟨[(6, H2Stream.new 6)], 1, none⟩ 4).toOption.map
      (fun m' => (m'.streams.lookup 4).isSome) = some true := by
  decide

/-- C6 (amended): for every inbound frame id, `get_or_create_stream` always
succeeds — it inserts a fresh stream when the id is unknown, regardless of
any ordering relative to previously seen peer ids, leaves every other id
untouched, and returns the manager unchanged when the id is known. -/
theorem C6_get_or_create_always_inserts (m : StreamManager) (id : Nat) :
    ∃ m', m.get_or_create_stream id = .ok m' ∧
      (m'.streams.lookup id).isSome ∧
      (∀ j, j ≠ id → m'.streams.lookup j = m.streams.lookup j) ∧
      ((m.streams.lookup id).isSome → m' = m) := by
  unfold StreamManager.get_or_create_stream
  by_cases h : (m.streams.lookup id).isSome
  · exact ⟨m, by simp [h], h, fun j _ => rfl, fun _ => rfl⟩
  · have hn : m.streams.lookup id = none := by
      cases hx : m.streams.lookup id
      · rfl
      · rw [hx] at h; simp at h
    refine ⟨{ m with streams := m.streams ++ [(id, H2Stream.new id)] },
      by simp [h], ?_, ?_, ?_⟩
    · rw [lookup_append, hn]
      simp [List.lookup]
    · intro j hj
      rw [lookup_append]
      have hjne : (j == id) = false := by simp [hj]
      cases hx : m.streams.lookup j
      · simp [List.lookup, hjne]
      · simp
    · intro hc
      rw [hn] at hc
      simp at hc

/-- Witness for C6 (amended) at the concrete manager of the
counterexample. -/
theorem C6_get_or_create_always_inserts_witness :
    ∃ m', (StreamManager.get_or_create_stream
        ⟨[(6, H2Stream.new 6)], 1, none⟩ 4) = .ok m' ∧
      (m'.streams.lookup 4).isSome ∧
      (∀ j, j ≠ 4 →
        m'.streams.lookup j =
          (⟨[(6, H2Stream.new 6)], 1, none⟩ : StreamManager).streams.lookup j) ∧
      (((⟨[(6, H2Stream.new 6)], 1, none⟩ :
          StreamManager).streams.lookup 4).isSome → m' = ⟨[(6, H2Stream.new 6)], 1, none⟩) :=
  C6_get_or_create_always_inserts ⟨[(6, H2Stream.new 6)], 1, none⟩ 4

/-! ### Claim C10 -/

/-- A `consume` call that grants a nonzero amount strictly decreases the
window, by at most the requested amount. -/
theorem consume_pos_spec (w : FlowControlWindow) (n : Nat)
    (h : (w.consume n).1 ≠ 0) :
    (w.consume n).2.current_size < w.current_size ∧
    w.current_size - (w.consume n).2.current_size ≤ (n : Int) := by
  unfold FlowControlWindow.consume at h ⊢
  by_cases h0 : n = 0
  · simp [h0] at h
  · by_cases hc : w.current_size ≤ 0
    · simp [h0, hc] at h
    · simp only [h0, hc, if_false] at h ⊢
      have hmin1 : min (n : Int) w.current_size ≤ (n : Int) := min_le_left _ _
      have hmin2 : (0 : Int) < min (n : Int) w.current_size :=
        lt_min (by omega) (by omega)
      constructor
      · omega
      · omega

/-- C10: whenever `H2Client::send_data` fails with the stream-level
flow-control error (the stream window granted 0 bytes), the
connection-level send window has already been strictly decreased, by at
most the frame's data length — the connection state is not left unchanged
on that error path. -/
theorem C10_conn_window_consumed_on_stream_error (st : ClientState)
    (frame : DataFrame)
    (h : (client_send_data st frame).1 =
      .error (.flowControl "Stream window exhausted")) :
    (client_send_data st frame).2.connSendWindow.current_size <
      st.connSendWindow.current_size ∧
    st.connSendWindow.current_size -
      (client_send_data st frame).2.connSendWindow.current_size ≤
        (frame.data.length : Int) := by
  unfold client_send_data at h ⊢
  by_cases hc : (st.connSendWindow.consume frame.data.length).1 = 0
  · simp only [hc, if_true] at h
    exact absurd h (by simp)
  · simp only [hc, if_false] at h ⊢
    have hwin := consume_pos_spec st.connSendWindow frame.data.length hc
    cases hs : st.stream_manager.get_stream frame.stream_id with
    | none =>
      rw [hs] at h
      exact Except.noConfusion h
    | some s =>
      rw [hs] at h
      cases hsd : s.send_data frame.data.length frame.end_stream with
      | error e =>
        simp only [hsd] at h ⊢
        exact hwin
      | ok p =>
        obtain ⟨g, s'⟩ := p
        simp only [hsd] at h ⊢
        by_cases hz : g = 0
        · simp only [hz, if_true]
          exact hwin
        · rw [if_neg hz] at h
          exact Except.noConfusion h

/-- Witness for C10: a connection send window of 10, a target stream whose
own send window is exhausted (initial size 0); sending a 5-byte DATA frame
fails with the stream-level error while the connection window has dropped
from 10 to 5. -/
theorem C10_conn_window_consumed_on_stream_error_witness :
    (client_send_data
        { stream_manager :=
            { streams := [(1, { H2Stream.new 1 with
                state := .Open,
                sendWindow := FlowControlWindow.with_initial_size 0 })]
              next_stream_id := 3
              max_concurrent_streams := none }
          connSendWindow := FlowControlWindow.with_initial_size 10
          connRecvWindow := FlowControlWindow.new
          local_settings := Settings.default_settings
          remote_settings := Settings.default_settings }
        ⟨1, [0, 0, 0, 0, 0], false, none⟩).1 =
      .error (.flowControl "Stream window exhausted") ∧
    (client_send_data
        { stream_manager :=
            { streams := [(1, { H2Stream.new 1 with
                state := .Open,
                sendWindow := FlowControlWindow.with_initial_size 0 })]
              next_stream_id := 3
              max_concurrent_streams := none }
          connSendWindow := FlowControlWindow.with_initial_size 10
          connRecvWindow := FlowControlWindow.new
          local_settings := Settings.default_settings
          remote_settings := Settings.default_settings }
        ⟨1, [0, 0, 0, 0, 0], false, none⟩).2.connSendWindow.current_size <
      (FlowControlWindow.with_initial_size 10).current_size ∧
    (FlowControlWindow.with_initial_size 10).current_size -
      (client_send_data
        { stream_manager :=
            { streams := [(1, { H2Stream.new 1 with
                state := .Open,
                sendWindow := FlowControlWindow.with_initial_size 0 })]
              next_stream_id := 3
              max_concurrent_streams := none }
          connSendWindow := FlowControlWindow.with_initial_size 10
          connRecvWindow := FlowControlWindow.new
          local_settings := Settings.default_settings
          remote_settings := Settings.default_settings }
        ⟨1, [0, 0, 0, 0, 0], false, none⟩).2.connSendWindow.current_size ≤
      (5 : Int) := by
  have h := C10_conn_window_consumed_on_stream_error
    { stream_manager :=
        { streams := [(1, { H2Stream.new 1 with
            state := .Open,
            sendWindow := FlowControlWindow.with_initial_size 0 })]
          next_stream_id := 3
          max_concurrent_streams := none }
      connSendWindow := FlowControlWindow.with_initial_size 10
      connRecvWindow := FlowControlWindow.new
      local_settings := Settings.default_settings
      remote_settings := Settings.default_settings }
    ⟨1, [0, 0, 0, 0, 0], false, none⟩ (by decide)
  exact ⟨by decide, h.1, h.2⟩

/-! ### Claim C2 -/

/-- C2: evaluation of `recv_response` on two DATA frames for the target
stream (payloads `[1, 2]` then `[3]`, the second with END_STREAM).  Both the
connection-level and the stream-level receive windows are debited by the
payload lengths (65535 − 3 = 65532), but the final body is `[3]` — the
payload of the last DATA frame only, because the loop overwrites
`response.body` instead of appending — and not the concatenation
`[1, 2] ++ [3]`. -/
theorem C2_recv_response_overwrites_body :
    (recv_response (fun _ => .ok []) 1
        { stream_manager :=
            { streams := [(1, { H2Stream.new 1 with state := .Open })]
              next_stream_id := 3
              max_concurrent_streams := none }
          connSendWindow := FlowControlWindow.new
          connRecvWindow := FlowControlWindow.new
          local_settings := Settings.default_settings
          remote_settings := Settings.default_settings }
        [⟨.data, 0, 1, [1, 2]⟩, ⟨.data, 1, 1, [3]⟩]).toOption.map
      (fun r => (r.1.body, r.2.1.connRecvWindow.current_size,
        (r.2.1.stream_manager.get_stream 1).map
          (fun s => s.recvWindow.current_size))) =
      some ([3], 65532, some 65532) ∧
    ([3] : List Nat) ≠ [1, 2] ++ [3] := by
  decide

/-! ### Claim C3 -/

/-- C3 (spec-modelled): server startup reads exactly 24 bytes and fails with
`MissingPreface` if and only if they differ from the connection preface; on a
byte-for-byte match it proceeds to send its own SETTINGS, read the peer's
SETTINGS, merge them, and send a SETTINGS ACK. -/
theorem C3_server_startup_preface (input : List Nat) (own peer : Settings)
    (hlen : 24 ≤ input.length) :
    (server_startup input own peer = .error .missingPreface ↔
      input.take 24 ≠ CONNECTION_PREFACE) ∧
    (input.take 24 = CONNECTION_PREFACE →
      server_startup input own peer =
        .ok (Settings.default_settings.merge peer,
          [.sendSettings own, .recvPeerSettings, .sendSettingsAck])) := by
  unfold server_startup
  have hl : ¬ input.length < 24 := by omega
  rw [if_neg hl]
  by_cases hpre : input.take 24 = CONNECTION_PREFACE
  · rw [if_neg (by simpa using hpre)]
    constructor
    · constructor
      · intro hcon
        exact absurd hcon (by simp)
      · intro hcon
        exact absurd hpre hcon
    · intro _
      rfl
  · rw [if_pos hpre]
    constructor
    · constructor
      · intro _
        exact hpre
      · intro _
        rfl
    · intro hcon
      exact absurd hcon hpre

/-- Witness for C3 at the genuine 24-byte preface. -/
theorem C3_server_startup_preface_witness :
    24 ≤ (CONNECTION_PREFACE : List Nat).length ∧
    ((server_startup CONNECTION_PREFACE Settings.new Settings.new =
        .error .missingPreface ↔
      CONNECTION_PREFACE.take 24 ≠ CONNECTION_PREFACE) ∧
    (CONNECTION_PREFACE.take 24 = CONNECTION_PREFACE →
      server_startup CONNECTION_PREFACE Settings.new Settings.new =
        .ok (Settings.default_settings.merge Settings.new,
          [.sendSettings Settings.new, .recvPeerSettings,
           .sendSettingsAck]))) :=
  ⟨by decide,
    C3_server_startup_preface CONNECTION_PREFACE Settings.new Settings.new
      (by decide)⟩

/-! ### Claim C7 -/

/-- C7 counterexample: a SETTINGS frame on stream 0 whose payload length 7 is
not a multiple of 6 is processed without any error — `recv_settings` parses
whole 6-byte entries and silently drops the trailing byte, so no
FRAME_SIZE_ERROR (nor any other connection error) is raised. -/
theorem C7_settings_length_not_checked :
    (7 : Nat) % 6 ≠ 0 ∧
    (recv_settings_frame
        { stream_manager :=
            { streams := []
              next_stream_id := 1
              max_concurrent_streams := none }
          connSendWindow := FlowControlWindow.new
          connRecvWindow := FlowControlWindow.new
          local_settings := Settings.default_settings
          remote_settings := Settings.default_settings }
        ⟨.settings, 0, 0, List.replicate 7 0⟩).isOk = true := by
  decide

/-- C7 (amended): a SETTINGS frame with stream id ≠ 0 is rejected with a
PROTOCOL_ERROR connection error, but the other two violations named by the
claim are not rejected: a SETTINGS payload whose length is not a multiple of
6 is processed normally (whole 6-byte entries are applied and the trailing
fragment is ignored, as witnessed by the payload hypothesis being about the
parsed entries only, with no length check), and a PING frame with a payload
of at least 8 bytes is handled in the response loop — skipped or echoed —
without any stream-id check, so it never causes a connection error; a
processed non-ACK PING with a shorter payload panics the process at the
`payload[..8]` slice rather than raising a connection error. -/
theorem C7_violation_handling :
    (∀ (st : ClientState) (f : FrameRaw), f.typ = .settings →
      f.stream_id ≠ 0 →
      recv_settings_frame st f =
        .error (.protocol "SETTINGS frame must have stream ID 0")) ∧
    (∀ (st : ClientState) (f : FrameRaw), f.typ = .settings →
      f.stream_id = 0 → f.flags &&& 0x1 = 0 →
      parse_settings_payload f.payload = Settings.new →
      recv_settings_frame st f =
        .ok ({ st with
            remote_settings := st.remote_settings.merge Settings.new
            stream_manager := { st.stream_manager with
              max_concurrent_streams := none } },
          [encode_settings_frame true Settings.new])) ∧
    (∀ (hp : List Nat → Except String (List (String × String)))
        (target : Nat) (st : ClientState) (resp : H2Response) (hr : Bool)
        (outs : List (List Nat)) (f : FrameRaw) (rest : List FrameRaw),
      f.typ = .ping → 8 ≤ f.payload.length →
      ∃ outs', recv_response_go hp target st resp hr outs (f :: rest) =
        recv_response_go hp target st resp hr outs' rest) ∧
    (∀ (hp : List Nat → Except String (List (String × String)))
        (target : Nat) (st : ClientState) (resp : H2Response) (hr : Bool)
        (outs : List (List Nat)) (f : FrameRaw) (rest : List FrameRaw),
      f.typ = .ping → ¬ (f.stream_id ≠ target ∧ f.stream_id ≠ 0) →
      f.flags &&& 0x1 = 0 → f.payload.length < 8 →
      recv_response_go hp target st resp hr outs (f :: rest) =
        .error (.panicked "range end index 8 out of range for slice")) := by
  refine ⟨?_, ?_, ?_, ?_⟩
  · intro st f htyp hsid
    unfold recv_settings_frame
    rw [if_neg (by simp [htyp]), if_pos hsid]
  · intro st f htyp hsid hack hparse
    unfold recv_settings_frame
    rw [if_neg (by simp [htyp]), if_neg (by simp [hsid]),
      if_neg (by simp [hack]), hparse]
    rfl
  · intro hp target st resp hr outs f rest htyp hplen
    obtain ⟨ftyp, fflags, fsid, fpayload⟩ := f
    have htyp2 : ftyp = .ping := htyp
    subst htyp2
    have hplen2 : 8 ≤ fpayload.length := hplen
    by_cases hskip : fsid ≠ target ∧ fsid ≠ 0
    · refine ⟨outs, ?_⟩
      rw [recv_response_go.eq_def]
      simp only []
      rw [if_pos hskip]
    · by_cases hack : fflags &&& 0x1 ≠ 0
      · refine ⟨outs, ?_⟩
        rw [recv_response_go.eq_def]
        simp only []
        rw [if_neg hskip, if_pos hack]
      · refine ⟨outs ++ [encode_ping_frame true (fpayload.take 8)], ?_⟩
        rw [recv_response_go.eq_def]
        simp only []
        rw [if_neg hskip, if_neg hack, if_neg (by omega)]
  · intro hp target st resp hr outs f rest htyp hnoskip hack hshort
    obtain ⟨ftyp, fflags, fsid, fpayload⟩ := f
    have htyp2 : ftyp = .ping := htyp
    subst htyp2
    have hnoskip2 : ¬ (fsid ≠ target ∧ fsid ≠ 0) := hnoskip
    have hshort2 : fpayload.length < 8 := hshort
    rw [recv_response_go.eq_def]
    simp only []
    rw [if_neg hnoskip2, if_neg (by simp [hack]), if_pos hshort2]

/-- Witness for C7 at concrete frames: a SETTINGS frame on stream 5, a PING
with an 8-byte payload on stream id 9 inside the response loop, and a
non-ACK PING with a 3-byte payload on stream 0 that hits the panic path. -/
theorem C7_violation_handling_witness :
    (recv_settings_frame
        { stream_manager :=
            { streams := []
              next_stream_id := 1
              max_concurrent_streams := none }
          connSendWindow := FlowControlWindow.new
          connRecvWindow := FlowControlWindow.new
          local_settings := Settings.default_settings
          remote_settings := Settings.default_settings }
        ⟨.settings, 0, 5, []⟩ =
      .error (.protocol "SETTINGS frame must have stream ID 0")) ∧
    (∃ outs', recv_response_go (fun _ => .ok []) 1
        { stream_manager :=
            { streams := []
              next_stream_id := 1
              max_concurrent_streams := none }
          connSendWindow := FlowControlWindow.new
          connRecvWindow := FlowControlWindow.new
          local_settings := Settings.default_settings
          remote_settings := Settings.default_settings }
        ⟨1, 0, [], []⟩ false []
        [⟨.ping, 0, 9, [1, 2, 3, 4, 5, 6, 7, 8]⟩] =
      recv_response_go (fun _ => .ok []) 1
        { stream_manager :=
            { streams := []
              next_stream_id := 1
              max_concurrent_streams := none }
          connSendWindow := FlowControlWindow.new
          connRecvWindow := FlowControlWindow.new
          local_settings := Settings.default_settings
          remote_settings := Settings.default_settings }
        ⟨1, 0, [], []⟩ false outs' []) ∧
    (recv_response_go (fun _ => .ok []) 1
        { stream_manager :=
            { streams := []
              next_stream_id := 1
              max_concurrent_streams := none }
          connSendWindow := FlowControlWindow.new
          connRecvWindow := FlowControlWindow.new
          local_settings := Settings.default_settings
          remote_settings := Settings.default_settings }
        ⟨1, 0, [], []⟩ false []
        [⟨.ping, 0, 0, [1, 2, 3]⟩] =
      .error (.panicked "range end index 8 out of range for slice")) :=
  ⟨C7_violation_handling.1 _ ⟨.settings, 0, 5, []⟩ rfl (by decide),
    C7_violation_handling.2.2.1 (fun _ => .ok []) 1 _ ⟨1, 0, [], []⟩ false []
      ⟨.ping, 0, 9, [1, 2, 3, 4, 5, 6, 7, 8]⟩ [] rfl (by decide),
    C7_violation_handling.2.2.2 (fun _ => .ok []) 1 _ ⟨1, 0, [], []⟩ false []
      ⟨.ping, 0, 0, [1, 2, 3]⟩ [] rfl (by decide) (by decide) (by decide)⟩

/-! ### Claim C8 -/

/-- Every position of a list of bytes below 256 reads below 256 (the default
for an out-of-range index is 0). -/
theorem getD_lt_256 (l : List Nat) (i : Nat) (h : ∀ b ∈ l, b < 256) :
    l.getD i 0 < 256 := by
  unfold List.getD
  cases hx : l.get? i with
  | none => simp [hx]
  | some v =>
    simp only [Option.getD_some]
    rw [List.get?_eq_getElem?] at hx
    exact h v (List.getElem?_mem hx)

/-- The length field decoded from a header of genuine bytes is at most
2²⁴−1, i.e. at most the fixed constant `MAX_FRAME_SIZE` of `codec.rs` —
which is why the oversized-payload branch of the read path cannot fire. -/
theorem decode_header_length_le (bytes : List Nat)
    (h : ∀ b ∈ bytes, b < 256) :
    (decode_header bytes).2.2.2 ≤ 16777215 := by
  have h0 := getD_lt_256 bytes 0 h
  have h1 := getD_lt_256 bytes 1 h
  have h2 := getD_lt_256 bytes 2 h
  show ((bytes.getD 0 0) <<< 16) ||| ((bytes.getD 1 0) <<< 8) |||
    (bytes.getD 2 0) ≤ 16777215
  revert h0 h1 h2
  generalize bytes.getD 0 0 = b0
  generalize bytes.getD 1 0 = b1
  generalize bytes.getD 2 0 = b2
  intro h0 h1 h2
  rw [Nat.shiftLeft_eq, Nat.shiftLeft_eq]
  norm_num
  rw [or_eq_add_65536 _ _ (by omega)]
  have e : b0 * 65536 + b1 * 256 = (b0 * 256 + b1) * 256 := by ring
  rw [e, or_eq_add_256 _ _ (by omega)]
  omega

/-- Success path of `read_frame_from_session`: with at least 9 bytes, a
decoded length within the constant bound and enough payload bytes, the
frame is returned and the stream is consumed past exactly the header and
payload. -/
theorem read_frame_ok (input : List Nat) (hlen : 9 ≤ input.length)
    (hmax : (decode_header (input.take 9)).2.2.2 ≤ 16777215)
    (hpl : (decode_header (input.take 9)).2.2.2 ≤ input.length - 9) :
    read_frame_from_session input =
      .ok (((decode_header (input.take 9)).1,
            (decode_header (input.take 9)).2.1,
            (decode_header (input.take 9)).2.2.1,
            (input.drop 9).take ((decode_header (input.take 9)).2.2.2)),
        input.drop (9 + (decode_header (input.take 9)).2.2.2)) := by
  simp only [read_frame_from_session, MAX_FRAME_SIZE]
  rw [if_neg (by omega), if_neg (by omega), if_neg (by omega)]

/-- C8 counterexample: a frame advertising a 16390-byte payload — more than
the locally configured MAX_FRAME_SIZE of 16384 plus 1 — followed by exactly
16390 payload bytes is read successfully; no FrameSize error is raised,
because the read path compares against the fixed constant 0xFFFFFF, not the
local settings. -/
theorem C8_oversized_frame_read_ok :
    16384 + 1 < 16390 ∧
    read_frame_from_session
        (encode_header .data 0 1 16390 ++ List.replicate 16390 0) =
      .ok ((.data, 0, 1, List.replicate 16390 0), []) := by
  refine ⟨by norm_num, ?_⟩
  have h9 : (encode_header .data 0 1 16390).length = 9 := rfl
  have htake : (encode_header .data 0 1 16390 ++
      List.replicate 16390 0).take 9 = encode_header .data 0 1 16390 :=
    List.take_left' h9
  have hdrop : (encode_header .data 0 1 16390 ++
      List.replicate 16390 0).drop 9 = List.replicate 16390 0 :=
    List.drop_left' h9
  have hdec : decode_header ((encode_header .data 0 1 16390 ++
      List.replicate 16390 0).take 9) = (.data, 0, 1, 16390) := by
    rw [htake]
    exact decode_encode_header .data 0 1 16390 (by norm_num) (by norm_num)
  have hlen : (encode_header .data 0 1 16390 ++
      List.replicate 16390 0).length = 16399 := by
    rw [List.length_append, h9, List.length_replicate]
  have hpay : (List.replicate 16390 (0 : Nat)).take 16390 =
      List.replicate 16390 0 :=
    List.take_of_length_le (List.length_replicate 16390 0).le
  have hrem : (encode_header .data 0 1 16390 ++
      List.replicate 16390 0).drop 16399 = [] :=
    List.drop_of_length_le hlen.le
  rw [read_frame_ok _ (by omega) (by rw [hdec]; decide) (by rw [hdec, hlen])]
  rw [hdec, hdrop]
  show Except.ok
      ((FrameType.data, 0, 1, (List.replicate 16390 (0 : Nat)).take 16390),
        (encode_header .data 0 1 16390 ++ List.replicate 16390 0).drop 16399) =
    Except.ok ((FrameType.data, 0, 1, List.replicate 16390 (0 : Nat)),
      ([] : List Nat))
  rw [hpay, hrem]

/-- C8 (amended): `read_frame_from_session` consumes the 9-byte header and
exactly the advertised number of payload bytes, failing with the
connection-closed I/O error (`UnexpectedEof`) when the transport ends
mid-header or mid-payload; the FrameSize check compares the advertised
length against the fixed constant `MAX_FRAME_SIZE = 0xFFFFFF` of `codec.rs`
— not the locally configured setting — and for genuine byte input (all
values below 256) the 24-bit length field can never exceed it, so that
error is unreachable. -/
theorem C8_read_frame_characterization (input : List Nat)
    (hbytes : ∀ b ∈ input, b < 256) :
    (input.length < 9 →
      read_frame_from_session input = .error (.ioErr .unexpectedEof)) ∧
    (9 ≤ input.length →
      (input.length - 9 < (decode_header (input.take 9)).2.2.2 →
        read_frame_from_session input = .error (.ioErr .unexpectedEof)) ∧
      ((decode_header (input.take 9)).2.2.2 ≤ input.length - 9 →
        read_frame_from_session input =
          .ok (((decode_header (input.take 9)).1,
                (decode_header (input.take 9)).2.1,
                (decode_header (input.take 9)).2.2.1,
                (input.drop 9).take ((decode_header (input.take 9)).2.2.2)),
            input.drop (9 + (decode_header (input.take 9)).2.2.2)))) ∧
    read_frame_from_session input ≠ .error (.ioErr .invalidData) := by
  have hmax : (decode_header (input.take 9)).2.2.2 ≤ 16777215 :=
    decode_header_length_le _ (fun b hb => hbytes b (List.mem_of_mem_take hb))
  refine ⟨?_, ?_, ?_⟩
  · intro hlen
    simp only [read_frame_from_session]
    rw [if_pos hlen]
  · intro h9
    refine ⟨?_, ?_⟩
    · intro hshort
      simp only [read_frame_from_session, MAX_FRAME_SIZE]
      rw [if_neg (by omega), if_neg (by omega), if_pos (by omega)]
    · intro hok
      exact read_frame_ok input h9 hmax hok
  · by_cases hlen : input.length < 9
    · simp only [read_frame_from_session]
      rw [if_pos hlen]
      simp
    · by_cases hshort : input.length - 9 <
          (decode_header (input.take 9)).2.2.2
      · simp only [read_frame_from_session, MAX_FRAME_SIZE]
        rw [if_neg hlen, if_neg (by omega), if_pos (by omega)]
        simp
      · rw [read_frame_ok input (by omega) hmax (by omega)]
        simp

/-- Witness for C8 on an 11-byte stream: a header advertising a 2-byte
payload followed by the bytes 7 and 8. -/
theorem C8_read_frame_characterization_witness :
    (∀ b ∈ encode_header .data 0 1 2 ++ [7, 8], b < 256) ∧
    (((encode_header .data 0 1 2 ++ [7, 8]).length < 9 →
      read_frame_from_session (encode_header .data 0 1 2 ++ [7, 8]) =
        .error (.ioErr .unexpectedEof)) ∧
    (9 ≤ (encode_header .data 0 1 2 ++ [7, 8]).length →
      ((encode_header .data 0 1 2 ++ [7, 8]).length - 9 <
          (decode_header ((encode_header .data 0 1 2 ++ [7, 8]).take 9)).2.2.2 →
        read_frame_from_session (encode_header .data 0 1 2 ++ [7, 8]) =
          .error (.ioErr .unexpectedEof)) ∧
      ((decode_header ((encode_header .data 0 1 2 ++ [7, 8]).take 9)).2.2.2 ≤
          (encode_header .data 0 1 2 ++ [7, 8]).length - 9 →
        read_frame_from_session (encode_header .data 0 1 2 ++ [7, 8]) =
          .ok (((decode_header ((encode_header .data 0 1 2 ++ [7, 8]).take 9)).1,
                (decode_header ((encode_header .data 0 1 2 ++ [7, 8]).take 9)).2.1,
                (decode_header ((encode_header .data 0 1 2 ++ [7, 8]).take 9)).2.2.1,
                ((encode_header .data 0 1 2 ++ [7, 8]).drop 9).take
                  ((decode_header ((encode_header .data 0 1 2 ++ [7, 8]).take 9)).2.2.2)),
            (encode_header .data 0 1 2 ++ [7, 8]).drop
              (9 + (decode_header ((encode_header .data 0 1 2 ++ [7, 8]).take 9)).2.2.2)))) ∧
    read_frame_from_session (encode_header .data 0 1 2 ++ [7, 8]) ≠
      .error (.ioErr .invalidData)) :=
  ⟨by decide, C8_read_frame_characterization _ (by decide)⟩

end VTest2
